import Mathlib

/-!
Verification of the EMMA tile cache-and-serve subsystem (`src/UI/tile_server.py`
and the coordinate math in `src/UI/map/map_view.py`), shallowly embedded in Lean.

Conventions of the embedding:
* Python strings are Lean `String`s.  The Python string operations used by the
  code (`lower`, `split`, `replace`, `strip`, suffix tests, `int(...)`) are
  given explicit structurally-recursive definitions over the character list,
  so that every model function evaluates by kernel reduction.
* Python `int(...)` applied to a float truncates toward zero; floats produced
  by the coordinate functions are modelled as rationals (`ratTrunc`) where only
  exact operations occur, and as reals for the transcendental Mercator math.
* The filesystem is explicit state: `CacheState` holds the cached files
  (path, bytes) plus a count of upstream network calls; the static-resource
  filesystem is a predicate `fsExists : String → Bool`.
* Exceptions that the Python code does not catch are `Except.error ()`;
  exceptions it catches and converts are ordinary return values.
-/

deriving instance DecidableEq for Except

/-! ## Python string primitives -/

/-- Python `str.lower()` (the source only lowercases ASCII tags). -/
def pyLower (s : String) : String :=
  ⟨s.data.map Char.toLower⟩

/-- If `sep` is a leading segment of `xs`, the remainder after it. -/
def dropPrefixL : List Char → List Char → Option (List Char)
  | [], xs => some xs
  | _ :: _, [] => none
  | a :: as, b :: bs => if a = b then dropPrefixL as bs else none

/-- Leading-segment test on character lists. -/
def isPrefixL (a b : List Char) : Bool :=
  (dropPrefixL a b).isSome

/-- Python `s.startswith(p)`. -/
def pyStartsWith (s p : String) : Bool :=
  isPrefixL p.data s.data

/-- Python `s.endswith(p)`. -/
def pyEndsWith (s p : String) : Bool :=
  isPrefixL p.data.reverse s.data.reverse

/-- Worker for `pySplit`; `fuel` bounds the recursion so that it is
structural (it is called with more fuel than the list length, and each step
consumes at least one character for a non-empty separator). -/
def pySplitAux (sep : List Char) : Nat → List Char → List Char →
    List (List Char)
  | 0, acc, xs => [acc.reverse ++ xs]
  | _ + 1, acc, [] => [acc.reverse]
  | fuel + 1, acc, x :: xs =>
      match dropPrefixL sep (x :: xs) with
      | some rest => acc.reverse :: pySplitAux sep fuel [] rest
      | none => pySplitAux sep fuel (x :: acc) xs

/-- Python `s.split(sep)` for a non-empty separator. -/
def pySplit (s sep : String) : List String :=
  (pySplitAux sep.data (s.data.length + 1) [] s.data).map String.mk

/-- Worker for `pyReplace`, fuelled like `pySplitAux`. -/
def pyReplaceAux (old new : List Char) : Nat → List Char → List Char
  | 0, xs => xs
  | _ + 1, [] => []
  | fuel + 1, x :: xs =>
      match dropPrefixL old (x :: xs) with
      | some rest => new ++ pyReplaceAux old new fuel rest
      | none => x :: pyReplaceAux old new fuel xs

/-- Python `s.replace(old, new)` for a non-empty `old`: every non-overlapping
occurrence, left to right. -/
def pyReplace (s old new : String) : String :=
  ⟨pyReplaceAux old.data new.data (s.data.length + 1) s.data⟩

/-- The characters Python `int(...)` strips around a numeral. -/
def isSpaceChar (c : Char) : Bool :=
  c = ' ' || c = '\t' || c = '\n' || c = '\r' || c = '\x0b' || c = '\x0c'

/-- Python `str.strip()`. -/
def pyStrip (s : String) : String :=
  ⟨((s.data.dropWhile isSpaceChar).reverse.dropWhile isSpaceChar).reverse⟩

/-- Decimal digits to a number; `none` as soon as a non-digit appears. -/
def parseDigitsAux : List Char → Nat → Option Nat
  | [], acc => some acc
  | c :: cs, acc =>
      if c.isDigit then parseDigitsAux cs (acc * 10 + (c.toNat - 48))
      else none

/-- Python `int(str)`: optional sign then decimal digits, after stripping
surrounding whitespace; `none` models a `ValueError`. -/
def pyInt (s : String) : Option Int :=
  match (pyStrip s).data with
  | [] => none
  | '-' :: rest =>
      if rest = [] then none
      else (parseDigitsAux rest 0).map (fun n => -(n : Int))
  | '+' :: rest =>
      if rest = [] then none
      else (parseDigitsAux rest 0).map (fun n => (n : Int))
  | c :: rest => (parseDigitsAux (c :: rest) 0).map (fun n => (n : Int))

/-! ## TileDownloader (`src/UI/tile_server.py`, lines 9-61) -/

/-- `TileDownloader.get_tile_path`: the local cache path for a tile.
Only the source tag `topo` (any casing) is normalised, to `TOPO`; every other
source string is used verbatim.  `os.makedirs` failure is caught and yields
`None`; `mkdirsOk` is the outcome of that call. -/
def get_tile_path (cache_dir tile_source : String) (z x y : Int)
    (mkdirsOk : Bool) : Option String :=
  let src := if pyLower tile_source = "topo" then "TOPO" else tile_source
  if mkdirsOk then
    some (cache_dir ++ "/" ++ src ++ "/" ++ toString z ++ "/" ++ toString x
      ++ "/" ++ toString y ++ ".png")
  else
    none

/-- Outcome of `urllib.request.urlopen` for one tile request.
`ok body` is a response delivered without an exception (HTTP 200), whose
`read()` returns `body`; `httpError` is a non-2xx status (raised as
`urllib.error.HTTPError`, a subclass of `URLError`); `urlError` is any other
network failure raised as `urllib.error.URLError`. -/
inductive NetResponse where
  | urlError : NetResponse
  | httpError (code : Nat) : NetResponse
  | ok (body : List Nat) : NetResponse
deriving DecidableEq, Repr

/-- Mutable state shared by all downloader operations: the cached files
(path together with the bytes written there) and the number of upstream
network requests issued so far. -/
structure CacheState where
  files : List (String × List Nat)
  netCalls : Nat
deriving DecidableEq, Repr

/-- `os.path.exists` on the cache. -/
def fileExists (s : CacheState) (p : String) : Bool :=
  s.files.any (fun f => f.1 = p)

/-- `TileDownloader.download_tile`: issues the network request (counted in
`netCalls` whatever its outcome), and on a delivered response writes the body
— whatever it is, an empty body included — to `tile_path`.  Only
`urllib.error.URLError` (which covers `HTTPError`) is caught and turned into
`False`; an `OSError` from opening or writing the cache file (`writeOk =
false`) propagates as an uncaught exception. -/
def download_tile (resp : NetResponse) (writeOk : Bool) (tile_path : String)
    (s : CacheState) : Except Unit (Bool × CacheState) :=
  let s1 : CacheState := { s with netCalls := s.netCalls + 1 }
  match resp with
  | .ok body =>
      if writeOk then
        .ok (true, { s1 with files := (tile_path, body) :: s1.files })
      else
        .error ()
  | .urlError => .ok (false, s1)
  | .httpError _ => .ok (false, s1)

/-- `TileDownloader.get_tile`: return the cached path if the file exists,
otherwise download it; `None` when the path could not be built or the
download failed. -/
def get_tile (cache_dir tile_source : String) (z x y : Int)
    (resp : NetResponse) (writeOk mkdirsOk : Bool) (s : CacheState) :
    Except Unit (Option String × CacheState) :=
  match get_tile_path cache_dir tile_source z x y mkdirsOk with
  | none => .ok (none, s)
  | some tile_path =>
      if fileExists s tile_path then
        .ok (some tile_path, s)
      else
        match download_tile resp writeOk tile_path s with
        | .error e => .error e
        | .ok (true, s1) => .ok (some tile_path, s1)
        | .ok (false, s1) => .ok (none, s1)

/-- One invocation of `get_tile` together with the environment outcomes
(network response, cache-write success, directory-creation success) that
this invocation encounters. -/
structure FetchOp where
  tile_source : String
  z : Int
  x : Int
  y : Int
  resp : NetResponse
  writeOk : Bool
  mkdirsOk : Bool
deriving DecidableEq, Repr

/-- The cache path a `FetchOp` resolves to. -/
def FetchOp.path (cache_dir : String) (op : FetchOp) : Option String :=
  get_tile_path cache_dir op.tile_source op.z op.x op.y op.mkdirsOk

/-- Run one `FetchOp`. -/
def runOp (cache_dir : String) (op : FetchOp) (s : CacheState) :
    Except Unit (Option String × CacheState) :=
  get_tile cache_dir op.tile_source op.z op.x op.y op.resp op.writeOk
    op.mkdirsOk s

/-- Run a sequence of `get_tile` invocations.  The HTTP server of
`tile_server.py` is a plain single-threaded `HTTPServer`, so its requests are
handled one after the other; a trace of sequential operations is its
execution model. -/
def runOps (cache_dir : String) : List FetchOp → CacheState →
    Except Unit CacheState
  | [], s => .ok s
  | op :: rest, s =>
      match runOp cache_dir op s with
      | .error e => .error e
      | .ok (_, s1) => runOps cache_dir rest s1

/-! ## Coordinate math (`src/UI/map/map_view.py`, lines 254-311) -/

/-- Truncation toward zero, the behaviour of Python `int()` on a float. -/
def ratTrunc (q : ℚ) : ℤ :=
  if 0 ≤ q then ⌊q⌋ else -⌊-q⌋

/-- `MapView.world_pixel_to_tile`: `int(pixel / 256)` on each coordinate.
The division by the tile size 256 is exact in binary floating point, so the
rational model is faithful. -/
def world_pixel_to_tile (pixel_x pixel_y : ℚ) : ℤ × ℤ :=
  (ratTrunc (pixel_x / 256), ratTrunc (pixel_y / 256))

/-- `MapView.tile_to_world_pixel`. -/
def tile_to_world_pixel (tile_x tile_y : ℤ) : ℤ × ℤ :=
  (tile_x * 256, tile_y * 256)

/-- `MapView.geo_to_world_pixel` over the reals (the source computes in
floating point; the claim is settled in exact real arithmetic):
`x = (lon + 180) / 360 * 2^zoom * 256` and
`y = (1 - log(tan(lat_rad) + 1 / cos(lat_rad)) / pi) / 2 * 2^zoom * 256`,
with `lat_rad = radians(lat)`. -/
noncomputable def geo_to_world_pixel (zoom : ℕ) (lat lon : ℝ) : ℝ × ℝ :=
  ((lon + 180) / 360 * 2 ^ zoom * 256,
   (1 - Real.log (Real.tan (lat * (Real.pi / 180)) +
      1 / Real.cos (lat * (Real.pi / 180))) / Real.pi) / 2 * 2 ^ zoom * 256)

/-- `MapView.world_pixel_to_geo` over the reals: the returned pair is
`(lat, lon)` with `lat = degrees(atan(sinh(pi * (1 - 2 * pixel_y / 256 /
2^zoom))))` and `lon = pixel_x / 256 / 2^zoom * 360 - 180`. -/
noncomputable def world_pixel_to_geo (zoom : ℕ) (pixel_x pixel_y : ℝ) :
    ℝ × ℝ :=
  (Real.arctan (Real.sinh (Real.pi * (1 - 2 * pixel_y / 256 / 2 ^ zoom))) *
     (180 / Real.pi),
   pixel_x / 256 / 2 ^ zoom * 360 - 180)

/-! ## HTTP request handling (`src/UI/tile_server.py`, lines 63-138) -/

/-- An HTTP response as produced by `TileRequestHandler.do_GET`: status code,
the `Content-type` header if one is sent, the path of the file whose bytes
are streamed to the client (if any), and a literal body string (if any). -/
structure HttpResponse where
  status : Nat
  contentType : Option String
  bodyFile : Option String
  bodyText : Option String
deriving DecidableEq, Repr

/-- `s.split('.')[0]`: the text before the first dot (all of `s` if none). -/
def firstDotField (s : String) : String :=
  (pySplit s ".").headD ""

/-- Python `'/resources/' in path`. -/
def hasResourcesSub (path : String) : Bool :=
  1 < (pySplit path "/resources/").length

/-- `os.path.join(a, b)` on POSIX for two components: an absolute second
component discards the first. -/
def osPathJoin (a b : String) : String :=
  if pyStartsWith b "/" then b
  else if a = "" then b
  else if pyEndsWith a "/" then a ++ b
  else a ++ "/" ++ b

/-- The `Content-type` chosen for a static resource; `none` when the
extension is unknown (the code then sends no `Content-type` header at all). -/
def contentTypeFor (p : String) : Option String :=
  if pyEndsWith p ".js" then some "application/javascript"
  else if pyEndsWith p ".css" then some "text/css"
  else if pyEndsWith p ".png" then some "image/png"
  else none

/-- The server-side configuration visible to the handler: the static resource
root, the tile cache root, and the filesystem used for static resources
(`os.path.exists`). -/
structure ServerEnv where
  resource_dir : String
  cache_dir : String
  fsExists : String → Bool

/-- `send_response(400)` with body `b'Invalid tile request'`. -/
def invalidTileResp : HttpResponse :=
  ⟨400, none, none, some "Invalid tile request"⟩

/-- The tile-request `try` block of `do_GET` (lines 82-116), reached when the
path splits into at least 5 parts with `parts[1] == 'tiles'`.  A `ValueError`
from `int(...)` or an `IndexError` from `parts[5]` is caught and answered
with 400; an unrecognised source, a failed fetch, or a missing file is
answered with 404 (no body); a resolved tile is streamed as `image/png`. -/
def tileBranch (env : ServerEnv) (parts : List String) (resp : NetResponse)
    (writeOk mkdirsOk : Bool) (s : CacheState) :
    Except Unit (HttpResponse × CacheState) :=
  let tile_source := parts.getD 2 ""
  match pyInt (parts.getD 3 "") with
  | none => .ok (invalidTileResp, s)
  | some z =>
    match pyInt (firstDotField (parts.getD 4 "")) with
    | none => .ok (invalidTileResp, s)
    | some x =>
      match parts.get? 5 with
      | none => .ok (invalidTileResp, s)
      | some p5 =>
        match pyInt (firstDotField p5) with
        | none => .ok (invalidTileResp, s)
        | some y =>
          if pyLower tile_source = "topo" then
            match get_tile env.cache_dir tile_source z x y resp writeOk
                mkdirsOk s with
            | .error e => .error e
            | .ok (some tile_path, s1) =>
                if fileExists s1 tile_path then
                  .ok (⟨200, some "image/png", some tile_path, none⟩, s1)
                else
                  .ok (⟨404, none, none, none⟩, s1)
            | .ok (none, s1) => .ok (⟨404, none, none, none⟩, s1)
          else
            .ok (⟨404, none, none, none⟩, s)

/-- `TileRequestHandler.do_GET`: dispatch on the request path.  `resp`,
`writeOk` and `mkdirsOk` are the environment outcomes a tile fetch would
encounter during this request. -/
def do_GET (env : ServerEnv) (path : String) (resp : NetResponse)
    (writeOk mkdirsOk : Bool) (s : CacheState) :
    Except Unit (HttpResponse × CacheState) :=
  let parts := pySplit path "/"
  if 5 ≤ parts.length ∧ parts.getD 1 "" = "tiles" then
    tileBranch env parts resp writeOk mkdirsOk s
  else if hasResourcesSub path then
    let resource_path := pyReplace path "/resources/" ""
    let local_path := osPathJoin env.resource_dir resource_path
    if env.fsExists local_path then
      .ok (⟨200, contentTypeFor local_path, some local_path, none⟩, s)
    else
      .ok (⟨404, none, none, some "Not found"⟩, s)
  else
    .ok (⟨404, none, none, some "Not found"⟩, s)

/-! ## LocalTileServer (`src/UI/tile_server.py`, lines 140-187) -/

/-- The fields of `LocalTileServer` relevant to `stop`: the `server` field is
`None` until a listener has been bound in `run` (the handle itself is opaque
here). -/
structure LocalTileServer where
  resource_dir : String
  cache_dir : String
  server : Option Unit
  port : Nat
deriving DecidableEq, Repr

/-- Observable effect of `LocalTileServer.stop`. -/
inductive StopEffect where
  | noop : StopEffect
  | shutdownCalled : StopEffect
deriving DecidableEq, Repr

/-- `LocalTileServer.stop`: `if self.server:` guards the shutdown; an
`HTTPServer` instance is always truthy, `None` is falsy.  The spawned
shutdown thread only invokes `self.server.shutdown()`; the fields of the
object are never written. -/
def LocalTileServer.stop (t : LocalTileServer) : LocalTileServer × StopEffect :=
  match t.server with
  | none => (t, .noop)
  | some _ => (t, .shutdownCalled)

/-! ## Theorems -/

/-- Claim C10: calling `LocalTileServer.stop` while the `server` field is
still `None` (no listener ever bound) is a total no-op: the object is
unchanged and `shutdown` is never invoked.  (The Lean model is total, so
returning normally is implicit.) -/
theorem C10_stop_noop (t : LocalTileServer) (h : t.server = none) :
    t.stop = (t, StopEffect.noop) := by
  unfold LocalTileServer.stop
  rw [h]

theorem C10_stop_noop_witness :
    ({ resource_dir := "res", cache_dir := "cache", server := none,
       port := 8080 } : LocalTileServer).server = none ∧
    ({ resource_dir := "res", cache_dir := "cache", server := none,
       port := 8080 } : LocalTileServer).stop =
      ({ resource_dir := "res", cache_dir := "cache", server := none,
         port := 8080 }, StopEffect.noop) :=
  ⟨rfl, C10_stop_noop _ rfl⟩

/-- Claim C6, counterexample: the cache-path mapping is NOT casing-stable for
every source string.  Only `topo` is normalised; the unrecognised source
`osm` keeps its request casing, so `osm` and `OSM` map to different on-disk
paths. -/
theorem C6_counterexample :
    get_tile_path "cache" "osm" 1 2 3 true = some "cache/osm/1/2/3.png" ∧
    get_tile_path "cache" "OSM" 1 2 3 true = some "cache/OSM/1/2/3.png" ∧
    get_tile_path "cache" "osm" 1 2 3 true ≠
      get_tile_path "cache" "OSM" 1 2 3 true := by
  refine ⟨by decide, by decide, by decide⟩

/-- Claim C6, amended: the cache path is
`{cache_root}/TOPO/{zoom}/{x}/{y}.png` for the recognised provider tag
`topo`, in whatever casing it is requested — casing-stability holds for the
recognised tag (and only for it; see the counterexample). -/
theorem C6_amended (cache_dir s1 s2 : String) (z x y : Int)
    (h1 : pyLower s1 = "topo") (h2 : pyLower s2 = "topo") :
    get_tile_path cache_dir s1 z x y true =
      get_tile_path cache_dir s2 z x y true ∧
    get_tile_path cache_dir s1 z x y true =
      some (cache_dir ++ "/" ++ "TOPO" ++ "/" ++ toString z ++ "/" ++
        toString x ++ "/" ++ toString y ++ ".png") := by
  unfold get_tile_path
  rw [h1, h2]
  exact ⟨rfl, rfl⟩

theorem C6_amended_witness :
    pyLower "Topo" = "topo" ∧ pyLower "tOpo" = "topo" ∧
    get_tile_path "cache" "Topo" 1 2 3 true =
      get_tile_path "cache" "tOpo" 1 2 3 true :=
  ⟨by decide, by decide,
    (C6_amended "cache" "Topo" "tOpo" 1 2 3 (by decide) (by decide)).1⟩

/-- Claim C2, counterexample: a delivered response with an EMPTY body is not
rejected — `download_tile` writes the empty file to the cache and reports
success, contradicting the claim that an empty body fails with nothing
written. -/
theorem C2_counterexample :
    download_tile (NetResponse.ok []) true "cache/TOPO/1/2/3.png" ⟨[], 0⟩ =
      .ok (true, ⟨[("cache/TOPO/1/2/3.png", [])], 1⟩) ∧
    fileExists ⟨[("cache/TOPO/1/2/3.png", [])], 1⟩ "cache/TOPO/1/2/3.png" =
      true := by
  refine ⟨by decide, by decide⟩

/-- Claim C2, amended: on any network error or non-200 HTTP status (both
raised as `URLError` and caught), the fetch reports failure and nothing is
written to the cache; a delivered 200 response, however, is cached and
reported as success whatever its body, an empty body included. -/
theorem C2_amended (resp : NetResponse) (writeOk : Bool) (p : String)
    (s : CacheState) (h : ∀ body, resp ≠ NetResponse.ok body) :
    download_tile resp writeOk p s =
      .ok (false, { s with netCalls := s.netCalls + 1 }) := by
  unfold download_tile
  cases resp with
  | ok body => exact absurd rfl (h body)
  | urlError => rfl
  | httpError c => rfl

theorem C2_amended_witness :
    (∀ body, NetResponse.httpError 404 ≠ NetResponse.ok body) ∧
    download_tile (NetResponse.httpError 404) true "p" ⟨[], 0⟩ =
      .ok (false, ⟨[], 1⟩) :=
  ⟨fun _ => by simp, C2_amended (NetResponse.httpError 404) true "p" ⟨[], 0⟩
    (fun _ => by simp)⟩

/-- Claim C7, counterexample: when the disk write of fetched bytes fails, the
`OSError` is NOT caught (`download_tile` only catches `URLError`), so the
fetch does not return failure — it raises — and the HTTP handler, whose
`except` clause covers only `ValueError` and `IndexError`, sends no response
at all for that request (no 404). -/
theorem C7_counterexample :
    download_tile (NetResponse.ok [137, 80, 78, 71]) false
      "cache/TOPO/1/2/3.png" ⟨[], 0⟩ = .error () ∧
    do_GET ⟨"res", "cache", fun _ => false⟩ "/tiles/TOPO/1/2/3.png"
      (NetResponse.ok [137, 80, 78, 71]) false true ⟨[], 0⟩ = .error () := by
  refine ⟨by decide, by decide⟩

/-- Claim C7, amended: a failure while writing the fetched bytes propagates
as an uncaught exception out of `download_tile` and `get_tile` (it is not
converted into a cache miss); only a failure of `os.makedirs` in
`get_tile_path` is caught, and that one degrades to a `None` result, i.e. a
miss. -/
theorem C7_amended (body : List Nat) (cache_dir tile_source p : String)
    (z x y : Int) (s : CacheState)
    (hp : get_tile_path cache_dir tile_source z x y true = some p)
    (h : fileExists s p = false) :
    download_tile (NetResponse.ok body) false p s = .error () ∧
    get_tile cache_dir tile_source z x y (NetResponse.ok body) false true s =
      .error () ∧
    get_tile cache_dir tile_source z x y (NetResponse.ok body) false false s =
      .ok (none, s) := by
  refine ⟨rfl, ?_, ?_⟩
  · unfold get_tile
    rw [hp]
    simp [h, download_tile]
  · unfold get_tile get_tile_path
    simp

theorem C7_amended_witness :
    (get_tile_path "cache" "TOPO" 1 2 3 true = some "cache/TOPO/1/2/3.png" ∧
     fileExists ⟨[], 0⟩ "cache/TOPO/1/2/3.png" = false) ∧
    get_tile "cache" "TOPO" 1 2 3 (NetResponse.ok [1]) false true ⟨[], 0⟩ =
      .error () :=
  ⟨⟨by decide, by decide⟩,
    (C7_amended [1] "cache" "TOPO" "cache/TOPO/1/2/3.png" 1 2 3 ⟨[], 0⟩
      (by decide) (by decide)).2.1⟩

/-- Claim C8, counterexample: `int()` truncates toward zero, it does not
floor.  At the negative pixel coordinate -300 the code returns tile index
-1, while floor division by 256 gives -2. -/
theorem C8_counterexample :
    world_pixel_to_tile (-300) 0 = (-1, 0) ∧
    (⌊((-300 : ℚ)) / 256⌋, ⌊(0 : ℚ) / 256⌋) = ((-2 : ℤ), (0 : ℤ)) ∧
    world_pixel_to_tile (-300) 0 ≠ (⌊((-300 : ℚ)) / 256⌋, ⌊(0 : ℚ) / 256⌋) := by
  have hf1 : (⌊((-300 : ℚ)) / 256⌋ : ℤ) = -2 :=
    Int.floor_eq_iff.mpr (by norm_num)
  have hf2 : (⌊(0 : ℚ) / 256⌋ : ℤ) = 0 :=
    Int.floor_eq_iff.mpr (by norm_num)
  have hf3 : (⌊(300 : ℚ) / 256⌋ : ℤ) = 1 :=
    Int.floor_eq_iff.mpr (by norm_num)
  have ht : world_pixel_to_tile (-300) 0 = (-1, 0) := by
    unfold world_pixel_to_tile ratTrunc
    rw [if_neg (by norm_num), if_pos (by norm_num),
      show -(((-300 : ℚ)) / 256) = (300 : ℚ) / 256 by ring, hf3, hf2]
  refine ⟨ht, by rw [Prod.mk.injEq]; exact ⟨hf1, hf2⟩, ?_⟩
  rw [ht, hf1, hf2]
  decide

/-- Claim C8, amended: `world_pixel_to_tile` divides each coordinate by the
tile size 256 and truncates toward zero (Python `int()`); this agrees with
floor division exactly on non-negative coordinates. -/
theorem C8_amended (px py : ℚ) (hx : 0 ≤ px) (hy : 0 ≤ py) :
    world_pixel_to_tile px py = (⌊px / 256⌋, ⌊py / 256⌋) := by
  unfold world_pixel_to_tile ratTrunc
  rw [if_pos (div_nonneg hx (by norm_num)),
    if_pos (div_nonneg hy (by norm_num))]

theorem C8_amended_witness :
    (0 : ℚ) ≤ 300 ∧ (0 : ℚ) ≤ 77 ∧
    world_pixel_to_tile 300 77 = (⌊(300 : ℚ) / 256⌋, ⌊(77 : ℚ) / 256⌋) :=
  ⟨by norm_num, by norm_num, C8_amended 300 77 (by norm_num) (by norm_num)⟩

/-- Claim C1, counterexample: there is no in-flight deduplication anywhere in
the code; two requests for the same missing tile whose upstream answers with
an error each issue their own network call — two upstream calls, not one, and
no result is broadcast. -/
theorem C1_counterexample :
    runOps "cache"
      [⟨"TOPO", 1, 2, 3, NetResponse.httpError 404, true, true⟩,
       ⟨"TOPO", 1, 2, 3, NetResponse.httpError 404, true, true⟩] ⟨[], 0⟩ =
      .ok ⟨[], 2⟩ := by
  decide

/-- Claim C1, amended: the code performs no deduplication; the single-threaded
`HTTPServer` serialises the requests, and each `get_tile` that observes a
cache miss issues its own upstream call.  After a successful fetch the second
identical request is a cache hit (one call in total, both callers get the
tile); after a failed fetch the second request issues a second upstream call. -/
theorem C1_amended (cache_dir tile_source : String) (z x y : Int)
    (body : List Nat) (s : CacheState) (p : String)
    (hp : get_tile_path cache_dir tile_source z x y true = some p)
    (h : fileExists s p = false) :
    (∃ s1 : CacheState,
      runOp cache_dir ⟨tile_source, z, x, y, NetResponse.ok body, true, true⟩
        s = .ok (some p, s1) ∧
      s1.netCalls = s.netCalls + 1 ∧
      runOp cache_dir ⟨tile_source, z, x, y, NetResponse.ok body, true, true⟩
        s1 = .ok (some p, s1)) ∧
    (∃ s1 s2 : CacheState,
      runOp cache_dir ⟨tile_source, z, x, y, NetResponse.urlError, true, true⟩
        s = .ok (none, s1) ∧
      s1.netCalls = s.netCalls + 1 ∧
      runOp cache_dir ⟨tile_source, z, x, y, NetResponse.urlError, true, true⟩
        s1 = .ok (none, s2) ∧
      s2.netCalls = s.netCalls + 2) := by
  constructor
  · refine ⟨{ files := (p, body) :: s.files, netCalls := s.netCalls + 1 },
      ?_, rfl, ?_⟩
    · unfold runOp get_tile
      rw [hp]
      simp [h, download_tile]
    · unfold runOp get_tile
      rw [hp]
      simp [fileExists]
  · refine ⟨{ s with netCalls := s.netCalls + 1 },
      { s with netCalls := s.netCalls + 1 + 1 }, ?_, rfl, ?_, rfl⟩
    · unfold runOp get_tile
      rw [hp]
      simp [h, download_tile]
    · have h1 : fileExists { s with netCalls := s.netCalls + 1 } p = false := h
      unfold runOp get_tile
      rw [hp]
      simp [h1, download_tile]

theorem C1_amended_witness :
    (get_tile_path "cache" "TOPO" 1 2 3 true = some "cache/TOPO/1/2/3.png" ∧
     fileExists ⟨[], 0⟩ "cache/TOPO/1/2/3.png" = false) ∧
    (∃ s1 : CacheState,
      runOp "cache" ⟨"TOPO", 1, 2, 3, NetResponse.ok [55], true, true⟩
        ⟨[], 0⟩ = .ok (some "cache/TOPO/1/2/3.png", s1) ∧
      s1.netCalls = (⟨[], 0⟩ : CacheState).netCalls + 1 ∧
      runOp "cache" ⟨"TOPO", 1, 2, 3, NetResponse.ok [55], true, true⟩ s1 =
        .ok (some "cache/TOPO/1/2/3.png", s1)) :=
  ⟨⟨by decide, by decide⟩,
    (C1_amended "cache" "TOPO" 1 2 3 [55] ⟨[], 0⟩ "cache/TOPO/1/2/3.png"
      (by decide) (by decide)).1⟩

/-- Helper for C9: `download_tile` never removes a cached file (it only ever
conses a new one). -/
theorem download_tile_preserves (resp : NetResponse) (writeOk : Bool)
    (tp : String) (s : CacheState) (b : Bool) (s1 : CacheState)
    (hrun : download_tile resp writeOk tp s = .ok (b, s1)) (p : String)
    (hp : fileExists s p = true) : fileExists s1 p = true := by
  unfold download_tile at hrun
  cases resp with
  | ok body =>
      cases writeOk with
      | false => simp at hrun
      | true =>
          simp at hrun
          obtain ⟨-, hs⟩ := hrun
          subst hs
          simp [fileExists] at hp ⊢
          exact Or.inr hp
  | urlError =>
      simp at hrun
      obtain ⟨-, hs⟩ := hrun
      subst hs
      exact hp
  | httpError c =>
      simp at hrun
      obtain ⟨-, hs⟩ := hrun
      subst hs
      exact hp

/-- Helper for C9: one `get_tile` invocation never removes a cached file. -/
theorem runOp_preserves (cache_dir : String) (op : FetchOp) (s : CacheState)
    (r : Option String) (s1 : CacheState)
    (hrun : runOp cache_dir op s = .ok (r, s1)) (p : String)
    (hp : fileExists s p = true) : fileExists s1 p = true := by
  unfold runOp get_tile at hrun
  cases hgp : get_tile_path cache_dir op.tile_source op.z op.x op.y
      op.mkdirsOk with
  | none =>
      rw [hgp] at hrun
      simp at hrun
      obtain ⟨-, hs⟩ := hrun
      subst hs
      exact hp
  | some tp =>
      rw [hgp] at hrun
      by_cases hex : fileExists s tp = true
      · simp [hex] at hrun
        obtain ⟨-, hs⟩ := hrun
        subst hs
        exact hp
      · simp [hex] at hrun
        cases hdl : download_tile op.resp op.writeOk tp s with
        | error e => rw [hdl] at hrun; simp at hrun
        | ok bs1 =>
            obtain ⟨b, sd⟩ := bs1
            rw [hdl] at hrun
            cases b with
            | true =>
                simp at hrun
                obtain ⟨-, hs⟩ := hrun
                subst hs
                exact download_tile_preserves _ _ _ _ _ _ hdl p hp
            | false =>
                simp at hrun
                obtain ⟨-, hs⟩ := hrun
                subst hs
                exact download_tile_preserves _ _ _ _ _ _ hdl p hp

/-- Helper for C9: a whole trace of `get_tile` invocations never removes a
cached file. -/
theorem runOps_preserves (cache_dir : String) (ops : List FetchOp) :
    ∀ s s1 : CacheState, runOps cache_dir ops s = .ok s1 →
      ∀ p : String, fileExists s p = true → fileExists s1 p = true := by
  induction ops with
  | nil =>
      intro s s1 h p hp
      unfold runOps at h
      simp at h
      subst h
      exact hp
  | cons op rest ih =>
      intro s s1 h p hp
      unfold runOps at h
      cases hop : runOp cache_dir op s with
      | error e => rw [hop] at h; simp at h
      | ok rs =>
          obtain ⟨r, sm⟩ := rs
          rw [hop] at h
          exact ih sm s1 h p (runOp_preserves cache_dir op s r sm hop p hp)

/-- Claim C9: once a tile's cache file exists, no operation of the subsystem
removes or overwrites it during any (sequential, as executed by the
single-threaded server) trace of `get_tile` invocations, and a subsequent
`get_tile` resolving to that key returns the cached path with the state
unchanged — in particular without any further upstream call. -/
theorem C9_cached_tiles_persist (cache_dir : String) (ops : List FetchOp)
    (s s1 : CacheState) (p : String)
    (hrun : runOps cache_dir ops s = .ok s1)
    (hp : fileExists s p = true) :
    fileExists s1 p = true ∧
    ∀ op : FetchOp, FetchOp.path cache_dir op = some p →
      runOp cache_dir op s1 = .ok (some p, s1) := by
  have hmono := runOps_preserves cache_dir ops s s1 hrun p hp
  refine ⟨hmono, fun op hop => ?_⟩
  unfold FetchOp.path at hop
  unfold runOp get_tile
  rw [hop]
  simp [hmono]

theorem C9_cached_tiles_persist_witness :
    (runOps "cache" [⟨"OSM", 4, 5, 6, NetResponse.urlError, true, true⟩]
        ⟨[("cache/TOPO/1/2/3.png", [9])], 0⟩ =
      .ok ⟨[("cache/TOPO/1/2/3.png", [9])], 1⟩ ∧
     fileExists ⟨[("cache/TOPO/1/2/3.png", [9])], 0⟩
       "cache/TOPO/1/2/3.png" = true) ∧
    (fileExists ⟨[("cache/TOPO/1/2/3.png", [9])], 1⟩
       "cache/TOPO/1/2/3.png" = true ∧
     ∀ op : FetchOp, FetchOp.path "cache" op = some "cache/TOPO/1/2/3.png" →
       runOp "cache" op ⟨[("cache/TOPO/1/2/3.png", [9])], 1⟩ =
         .ok (some "cache/TOPO/1/2/3.png",
           ⟨[("cache/TOPO/1/2/3.png", [9])], 1⟩)) :=
  ⟨⟨by decide, by decide⟩,
    C9_cached_tiles_persist "cache"
      [⟨"OSM", 4, 5, 6, NetResponse.urlError, true, true⟩]
      ⟨[("cache/TOPO/1/2/3.png", [9])], 0⟩
      ⟨[("cache/TOPO/1/2/3.png", [9])], 1⟩
      "cache/TOPO/1/2/3.png" (by decide) (by decide)⟩

/-- Claim C3, counterexample: the static-resource branch serves ANY existing
file with 200.  A `.txt` file under the resource root is served with 200
(and no `Content-type` header at all) instead of the claimed 404, and a path
whose remainder after `/resources/` is absolute escapes the resource root
entirely — `os.path.join` discards the root — serving `/etc/passwd`. -/
theorem C3_counterexample :
    (do_GET ⟨"res", "cache", fun q => q = "res/notes.txt" || q = "/etc/passwd"⟩
        "/resources/notes.txt" NetResponse.urlError true true ⟨[], 0⟩ =
      .ok (⟨200, none, some "res/notes.txt", none⟩, ⟨[], 0⟩)) ∧
    (do_GET ⟨"res", "cache", fun q => q = "res/notes.txt" || q = "/etc/passwd"⟩
        "/resources//etc/passwd" NetResponse.urlError true true ⟨[], 0⟩ =
      .ok (⟨200, none, some "/etc/passwd", none⟩, ⟨[], 0⟩)) ∧
    pyStartsWith "/etc/passwd" "res" = false := by
  refine ⟨by decide, by decide, by decide⟩

/-- Claim C3, amended: a GET handled by the static-resource branch serves the
file at `os.path.join(resource_dir, path with '/resources/' removed)` with
status 200 whenever that file exists, whatever its extension; the
`Content-type` header is set only for `.js`, `.css` and `.png` (and omitted
otherwise), and a missing file is answered 404.  No check confines the
joined path to the resource root. -/
theorem C3_amended (env : ServerEnv) (path : String) (resp : NetResponse)
    (writeOk mkdirsOk : Bool) (s : CacheState)
    (htile : ¬(5 ≤ (pySplit path "/").length ∧
      (pySplit path "/").getD 1 "" = "tiles"))
    (hres : hasResourcesSub path = true) :
    do_GET env path resp writeOk mkdirsOk s =
      (if env.fsExists (osPathJoin env.resource_dir
          (pyReplace path "/resources/" "")) then
        .ok (⟨200, contentTypeFor (osPathJoin env.resource_dir
            (pyReplace path "/resources/" "")),
          some (osPathJoin env.resource_dir
            (pyReplace path "/resources/" "")), none⟩, s)
      else
        .ok (⟨404, none, none, some "Not found"⟩, s)) := by
  unfold do_GET
  rw [if_neg htile, if_pos hres]

theorem C3_amended_witness :
    (¬(5 ≤ (pySplit "/resources/app.js" "/").length ∧
       (pySplit "/resources/app.js" "/").getD 1 "" = "tiles") ∧
     hasResourcesSub "/resources/app.js" = true) ∧
    do_GET ⟨"res", "cache", fun q => q = "res/app.js"⟩ "/resources/app.js"
        NetResponse.urlError true true ⟨[], 0⟩ =
      .ok (⟨200, some "application/javascript", some "res/app.js", none⟩,
        ⟨[], 0⟩) :=
  ⟨⟨by decide, by decide⟩,
    (C3_amended ⟨"res", "cache", fun q => q = "res/app.js"⟩
      "/resources/app.js" NetResponse.urlError true true ⟨[], 0⟩
      (by decide) (by decide)).trans (by decide)⟩

/-- Claim C5, counterexample: the path `/tiles/TOPO/1/2` matches neither the
tile form `/tiles/{source}/{zoom}/{x}/{y}.png` (there is no y segment) nor
the resource form, so per the claim it must be answered 404 — but the
missing segment raises `IndexError` inside the `try` block and the server
answers 400. -/
theorem C5_counterexample :
    do_GET ⟨"res", "cache", fun _ => false⟩ "/tiles/TOPO/1/2"
        NetResponse.urlError true true ⟨[], 0⟩ =
      .ok (invalidTileResp, ⟨[], 0⟩) ∧
    invalidTileResp.status = 400 ∧ invalidTileResp.status ≠ 404 := by
  refine ⟨by decide, rfl, by decide⟩

/-- Claim C5, amended: any path splitting on `/` into at least 5 parts with
`parts[1] = 'tiles'` is handled by the tile branch.  There, a missing y
segment (exactly 5 parts, an `IndexError`) or a zoom/x/y segment that does
not parse as an integer (after truncating at the first `.`; a `ValueError`)
is answered 400; with well-formed integers, a source that is not a casing of
`topo` is answered 404, a resolvable tile — a cache hit, or a miss followed
by a successful fetch whose bytes are written — is answered 200 with
`Content-type: image/png`, and a failed fetch is answered 404 after one
upstream call.  The `.png` extension is never required. -/
theorem C5_amended (env : ServerEnv) (src zs xs ys : String)
    (resp : NetResponse) (writeOk mkdirsOk : Bool) (s : CacheState) :
    (∀ path : String, 5 ≤ (pySplit path "/").length →
      (pySplit path "/").getD 1 "" = "tiles" →
      do_GET env path resp writeOk mkdirsOk s =
        tileBranch env (pySplit path "/") resp writeOk mkdirsOk s) ∧
    (pyInt zs ≠ none → pyInt (firstDotField xs) ≠ none →
      tileBranch env ["", "tiles", src, zs, xs] resp writeOk mkdirsOk s =
        .ok (invalidTileResp, s)) ∧
    (pyInt zs = none →
      tileBranch env ["", "tiles", src, zs, xs, ys] resp writeOk mkdirsOk s =
        .ok (invalidTileResp, s)) ∧
    (∀ z x y : Int, pyInt zs = some z → pyInt (firstDotField xs) = some x →
      pyInt (firstDotField ys) = some y → pyLower src ≠ "topo" →
      tileBranch env ["", "tiles", src, zs, xs, ys] resp writeOk mkdirsOk s =
        .ok (⟨404, none, none, none⟩, s)) ∧
    (∀ z x y : Int, pyInt zs = some z → pyInt (firstDotField xs) = some x →
      pyInt (firstDotField ys) = some y → pyLower src = "topo" →
      ∀ p : String, get_tile_path env.cache_dir src z x y mkdirsOk = some p →
        fileExists s p = true →
        tileBranch env ["", "tiles", src, zs, xs, ys] resp writeOk mkdirsOk
          s = .ok (⟨200, some "image/png", some p, none⟩, s)) ∧
    (∀ z x y : Int, pyInt zs = some z → pyInt (firstDotField xs) = some x →
      pyInt (firstDotField ys) = some y → pyLower src = "topo" →
      ∀ p : String, get_tile_path env.cache_dir src z x y mkdirsOk = some p →
        fileExists s p = false → (∀ b, resp ≠ NetResponse.ok b) →
        tileBranch env ["", "tiles", src, zs, xs, ys] resp writeOk mkdirsOk
          s = .ok (⟨404, none, none, none⟩,
            { s with netCalls := s.netCalls + 1 })) ∧
    (∀ z x y : Int, pyInt zs = some z → pyInt (firstDotField xs) = some x →
      pyInt (firstDotField ys) = some y → pyLower src = "topo" →
      ∀ p : String, get_tile_path env.cache_dir src z x y mkdirsOk = some p →
        fileExists s p = false → ∀ body : List Nat,
        resp = NetResponse.ok body → writeOk = true →
        tileBranch env ["", "tiles", src, zs, xs, ys] resp writeOk mkdirsOk
          s = .ok (⟨200, some "image/png", some p, none⟩,
            { files := (p, body) :: s.files,
              netCalls := s.netCalls + 1 })) := by
  refine ⟨?_, ?_, ?_, ?_, ?_, ?_, ?_⟩
  · intro path h1 h2
    unfold do_GET
    rw [if_pos ⟨h1, h2⟩]
  · intro h3 h4
    obtain ⟨z, hz⟩ := Option.ne_none_iff_exists'.mp h3
    obtain ⟨x, hx⟩ := Option.ne_none_iff_exists'.mp h4
    simp [tileBranch, hz, hx]
  · intro h
    simp [tileBranch, h]
  · intro z x y hz hx hy hsrc
    simp [tileBranch, hz, hx, hy, hsrc]
  · intro z x y hz hx hy hsrc p hp hfe
    simp [tileBranch, hz, hx, hy, hsrc, get_tile, hp, hfe]
  · intro z x y hz hx hy hsrc p hp hfe hnr
    have hdl : download_tile resp writeOk p s =
        .ok (false, { s with netCalls := s.netCalls + 1 }) := by
      unfold download_tile
      cases resp with
      | ok b => exact absurd rfl (hnr b)
      | urlError => rfl
      | httpError c => rfl
    simp [tileBranch, hz, hx, hy, hsrc, get_tile, hp, hfe, hdl]
  · intro z x y hz hx hy hsrc p hp hfe body hresp hw
    subst hresp
    subst hw
    have hcons : ∀ (b : List Nat) (n : Nat) (fs : List (String × List Nat)),
        fileExists ⟨(p, b) :: fs, n⟩ p = true := by
      intro b n fs
      simp [fileExists]
    simp [tileBranch, hz, hx, hy, hsrc, get_tile, hp, hfe, download_tile,
      hcons]

theorem C5_amended_witness :
    (pyInt "1" = some 1 ∧ pyInt (firstDotField "2") = some 2 ∧
     pyInt (firstDotField "3.png") = some 3 ∧ pyLower "TOPO" = "topo" ∧
     get_tile_path "cache" "TOPO" 1 2 3 true = some "cache/TOPO/1/2/3.png" ∧
     fileExists ⟨[], 0⟩ "cache/TOPO/1/2/3.png" = false) ∧
    tileBranch ⟨"res", "cache", fun _ => false⟩
      ["", "tiles", "TOPO", "1", "2", "3.png"] (NetResponse.ok [137, 80])
      true true ⟨[], 0⟩ =
      .ok (⟨200, some "image/png", some "cache/TOPO/1/2/3.png", none⟩,
        ⟨[("cache/TOPO/1/2/3.png", [137, 80])], 1⟩) :=
  ⟨⟨by decide, by decide, by decide, by decide, by decide, by decide⟩,
    (C5_amended ⟨"res", "cache", fun _ => false⟩ "TOPO" "1" "2" "3.png"
      (NetResponse.ok [137, 80]) true true ⟨[], 0⟩).2.2.2.2.2.2 1 2 3
      (by decide) (by decide) (by decide) (by decide) "cache/TOPO/1/2/3.png"
      (by decide) (by decide) [137, 80] rfl rfl⟩

/-- Claim C4: for every latitude strictly inside (-85.0511, 85.0511), every
longitude and every zoom level, `world_pixel_to_geo` applied to
`geo_to_world_pixel` at the same zoom reproduces `(lat, lon)` — exactly,
over the reals. -/
theorem C4_roundtrip (zoom : ℕ) (lat lon : ℝ)
    (h1 : -85.0511 < lat) (h2 : lat < 85.0511) :
    world_pixel_to_geo zoom (geo_to_world_pixel zoom lat lon).1
      (geo_to_world_pixel zoom lat lon).2 = (lat, lon) := by
  have hpi : (0:ℝ) < Real.pi := Real.pi_pos
  have hpne : (Real.pi : ℝ) ≠ 0 := ne_of_gt hpi
  have hn : (0:ℝ) < 2 ^ zoom := by positivity
  have hnne : ((2:ℝ) ^ zoom) ≠ 0 := ne_of_gt hn
  simp only [geo_to_world_pixel, world_pixel_to_geo]
  set φ : ℝ := lat * (Real.pi / 180) with hφ
  have hφu : φ < Real.pi / 2 := by
    rw [hφ]
    nlinarith [mul_pos hpi (show (0:ℝ) < 90 - lat by linarith)]
  have hφl : -(Real.pi / 2) < φ := by
    rw [hφ]
    nlinarith [mul_pos hpi (show (0:ℝ) < lat + 90 by linarith)]
  have hcos : 0 < Real.cos φ := Real.cos_pos_of_mem_Ioo ⟨hφl, hφu⟩
  have hC : Real.cos φ ≠ 0 := ne_of_gt hcos
  have hsin : -1 < Real.sin φ := by
    rcases lt_or_eq_of_le (Real.neg_one_le_sin φ) with h | h
    · exact h
    · exfalso
      nlinarith [Real.sin_sq_add_cos_sq φ, mul_pos hcos hcos, h]
  have hS1 : (0:ℝ) < Real.sin φ + 1 := by linarith
  have hS1ne : Real.sin φ + 1 ≠ 0 := ne_of_gt hS1
  have hu : Real.tan φ + 1 / Real.cos φ = (Real.sin φ + 1) / Real.cos φ := by
    rw [Real.tan_eq_sin_div_cos]
    field_simp
  have hupos : 0 < Real.tan φ + 1 / Real.cos φ := by
    rw [hu]
    exact div_pos hS1 hcos
  have e1 : (Real.sin φ + 1) / Real.cos φ - Real.cos φ / (Real.sin φ + 1) =
      ((Real.sin φ + 1) * (Real.sin φ + 1) - Real.cos φ * Real.cos φ) /
        (Real.cos φ * (Real.sin φ + 1)) := by
    rw [div_sub_div _ _ hC hS1ne]
  have e2 : (Real.sin φ + 1) * (Real.sin φ + 1) -
      Real.cos φ * Real.cos φ = 2 * Real.sin φ * (Real.sin φ + 1) := by
    linear_combination (-1 : ℝ) * Real.sin_sq_add_cos_sq φ
  have hsinh : Real.sinh (Real.log (Real.tan φ + 1 / Real.cos φ)) =
      Real.tan φ := by
    rw [Real.sinh_log hupos, hu, inv_div, Real.tan_eq_sin_div_cos, e1, e2,
      div_div, div_eq_div_iff (mul_ne_zero (mul_ne_zero hC hS1ne)
        two_ne_zero) hC]
    ring
  have harg : Real.pi * (1 - 2 * ((1 - Real.log (Real.tan φ +
      1 / Real.cos φ) / Real.pi) / 2 * 2 ^ zoom * 256) / 256 / 2 ^ zoom) =
      Real.log (Real.tan φ + 1 / Real.cos φ) := by
    field_simp
    ring
  rw [Prod.mk.injEq]
  constructor
  · rw [harg, hsinh, Real.arctan_tan hφl hφu, hφ]
    field_simp
  · field_simp
    ring

theorem C4_roundtrip_witness :
    (-85.0511 : ℝ) < 0 ∧ (0 : ℝ) < 85.0511 ∧
    world_pixel_to_geo 0 (geo_to_world_pixel 0 0 0).1
      (geo_to_world_pixel 0 0 0).2 = (0, 0) :=
  ⟨by norm_num, by norm_num, C4_roundtrip 0 0 0 (by norm_num) (by norm_num)⟩
